import Mathlib

/-!
Verification of the iichid HID transport/bus layer against its design
specification.  The definitions below are a shallow embedding of the C
sources `src/hidbus.c` and `src/usbhid.c`: pure functions model each C
function's observable effects, raw kernel pointers become `Option Nat`
(`none` models NULL, the number stands for the pointer identity), byte
buffers become `List Nat`, and machine integers become `Nat` (every value
involved is far below any relevant overflow bound; where C integer
promotion matters it is noted at the definition).
-/

/-- Fixed transfer buffer size in bytes: `UHID_BSIZE` (src/usbhid.c:87). -/
def UHID_BSIZE : Nat := 1024

/-- FreeBSD errno value ENOTSUP = EOPNOTSUPP = 45: operation not supported. -/
def ENOTSUP : Nat := 45

/-- FreeBSD errno value ENXIO = 6: device not configured / unreachable.
Named `ENXIOCode` in this development. -/
def ENXIOCode : Nat := 6

/-- The `usb_error_t` outcomes the interrupt pump distinguishes: only
`cancelled` (USB_ERR_CANCELLED) is treated specially; the other
constructors stand for the remaining nonzero transfer error codes. -/
inductive UsbErr where
  | cancelled
  | stalled
  | timeout
  | shortXfer
deriving DecidableEq, Repr

/-- The `USB_GET_STATE(xfer)` values dispatched on by the interrupt read
callback: USB_ST_TRANSFERRED, USB_ST_SETUP, and the default (error) case. -/
inductive UsbXferState where
  | transferred
  | setup
  | err
deriving DecidableEq, Repr

/-- Observable effects of one invocation of `uhid_intr_read_callback`:
`delivered` is the payload handed to the bound interrupt handler
(`sc->sc_intr_handler`, i.e. the bus routing function) or `none` when no
delivery happens; `stallCleared` records a `usbd_xfer_set_stall` call;
`resubmitted` records a `usbd_transfer_submit` call (re-arming). -/
structure IntrReadEffects where
  delivered : Option (List Nat)
  stallCleared : Bool
  resubmitted : Bool
deriving DecidableEq, Repr

/-- Translation of `uhid_intr_read_callback` (src/usbhid.c:183-229).
`isize` is `sc->sc_isize`, `iid` is `sc->sc_iid`, `actlen` the completed
transfer length reported by `usbd_xfer_status`, `payload` the transfer
buffer contents (at least `actlen` valid bytes).  In the TRANSFERRED case
the C code accepts the report when `actlen >= isize || (actlen > 0 &&
iid != 0)`, truncates `actlen` to `isize` when larger (`if (actlen >
(int)sc->sc_isize) actlen = sc->sc_isize;`), copies that many bytes out
into `sc->sc_ibuf` and calls the handler; otherwise it ignores the frame.
Control then falls through to the SETUP case which re-submits the
transfer.  In the error case a non-cancelled error clears the stall and
re-submits; USB_ERR_CANCELLED returns without re-submitting. -/
def uhid_intr_read_callback (isize iid : Nat) (st : UsbXferState) (error : UsbErr)
    (actlen : Nat) (payload : List Nat) : IntrReadEffects :=
  match st with
  | UsbXferState.transferred =>
      if isize ≤ actlen ∨ (0 < actlen ∧ iid ≠ 0) then
        { delivered := some (payload.take (if isize < actlen then isize else actlen)),
          stallCleared := false, resubmitted := true }
      else
        { delivered := none, stallCleared := false, resubmitted := true }
  | UsbXferState.setup =>
      { delivered := none, stallCleared := false, resubmitted := true }
  | UsbXferState.err =>
      if error = UsbErr.cancelled then
        { delivered := none, stallCleared := false, resubmitted := false }
      else
        { delivered := none, stallCleared := true, resubmitted := true }

/-- The routing fields of `struct hidbus_softc` (src/hidbus.c:45-51):
`child` and `intr` are raw pointers, zeroed when the softc is allocated;
`none` models NULL.  A handler function pointer is modelled by an opaque
numeric identity. -/
structure HidbusSoftc where
  child : Option Nat
  intr : Option Nat
deriving DecidableEq, Repr

/-- Translation of `hid_set_intr` (src/hidbus.c:111-119): the function
unconditionally stores the caller's child device and handler pointers
(`sc->child = child; sc->intr = intr;`); it has a `void` return and
performs no check of the previous contents. -/
def hid_set_intr (sc : HidbusSoftc) (child : Nat) (intr : Nat) : HidbusSoftc :=
  { sc with child := some child, intr := some intr }

/-- Outcome of one call to the bus routing function `hidbus_intr`.
`fault` models the undefined behaviour of calling through a NULL
`sc->intr` function pointer; `invoked` records the call made to the bound
handler with its arguments; `dropped` models a safe silent drop — the C
code never produces it, the constructor exists so that the specification's
claimed no-op behaviour is expressible in the same outcome type. -/
inductive HidbusIntrOutcome where
  | fault
  | dropped
  | invoked (handler : Nat) (child : Option Nat) (buf : List Nat) (len : Nat)
deriving DecidableEq, Repr

/-- Translation of `hidbus_intr` (src/hidbus.c:121-127): the body is the
single statement `sc->intr(sc->child, buf, len);` with no NULL check, so
with no handler bound the call goes through a NULL function pointer. -/
def hidbus_intr (sc : HidbusSoftc) (buf : List Nat) (len : Nat) : HidbusIntrOutcome :=
  match sc.intr with
  | none => HidbusIntrOutcome.fault
  | some h => HidbusIntrOutcome.invoked h sc.child buf len

/-- The fields of `struct uhid_softc` that `uhid_detach` inspects
(src/usbhid.c:102-131): whether the device is attached, the `sc_child`
pointer, the `sc_repdesc_ptr` pointer, the UHID_FLAG_STATIC_DESC bit of
`sc_flags`, and the `sc_ibuf` pointer.  All pointers are NULL (`none`) in
a freshly zeroed softc. -/
structure UhidDetachState where
  attached : Bool
  sc_child : Option Nat
  sc_repdesc_ptr : Option Nat
  staticDesc : Bool
  sc_ibuf : Option Nat
deriving DecidableEq, Repr

/-- Release actions performed by one `uhid_detach` call: whether
`bus_generic_detach`, `device_delete_child`, `free(sc_repdesc_ptr)` and
`free(sc_ibuf)` actually released something. -/
structure DetachEffects where
  busDetached : Bool
  childDeleted : Bool
  repdescFreed : Bool
  ibufFreed : Bool
deriving DecidableEq, Repr

/-- FreeBSD kernel `free(9)` on a possibly-NULL pointer: freeing NULL is a
no-op (kern_malloc.c returns immediately on a NULL address), so an
allocation is released exactly when the pointer is non-NULL. -/
def kfree (p : Option Nat) : Bool := p.isSome

/-- Translation of `uhid_detach` (src/usbhid.c:719-737): detach calls
`bus_generic_detach` only if the device is attached, deletes `sc_child`
only if it is non-NULL, frees `sc_repdesc_ptr` only if it is non-NULL and
the UHID_FLAG_STATIC_DESC flag is clear, and unconditionally passes
`sc_ibuf` to `free` (a no-op on NULL). -/
def uhid_detach (s : UhidDetachState) : DetachEffects :=
  { busDetached := s.attached
  , childDeleted := s.sc_child.isSome
  , repdescFreed := if s.sc_repdesc_ptr.isSome then (if s.staticDesc then false else true) else false
  , ibufFreed := kfree s.sc_ibuf }

/-- Inputs that determine the control flow of `uhid_attach`
(src/usbhid.c:577-717): which quirk device is present (Wacom Graphire,
Wacom Graphire3 4x5, Xbox 360 gamepad — these bind a static report
descriptor), whether the dynamic descriptor fetch `usbd_req_get_hid_desc`
succeeds, the raw report sizes computed by `hid_report_size` for the
input/output/feature kinds, and whether `device_add_child` succeeds. -/
structure AttachEnv where
  isGraphire : Bool
  isGraphire3 : Bool
  isXb360 : Bool
  dynDescOk : Bool
  rawIsize : Nat
  rawOsize : Nat
  rawFsize : Nat
  childOk : Bool
deriving DecidableEq, Repr

/-- The softc state a successful `uhid_attach` leaves behind, restricted
to the fields the claims are about: the three stored report sizes, the
static-descriptor flag, and whether each oversize truncation DPRINTF log
message fired. -/
structure UhidAttached where
  sc_isize : Nat
  sc_osize : Nat
  sc_fsize : Nat
  staticDesc : Bool
  loggedIsize : Bool
  loggedOsize : Bool
  loggedFsize : Bool
deriving DecidableEq, Repr

/-- The size cap applied by `uhid_attach` to each computed report size
(src/usbhid.c:671-688): `if (sc->sc_isize > UHID_BSIZE) sc->sc_isize =
UHID_BSIZE;` and likewise for the output and feature sizes. -/
def capSize (r : Nat) : Nat := if UHID_BSIZE < r then UHID_BSIZE else r

/-- Translation of `uhid_attach` (src/usbhid.c:577-717), restricted to
the control flow the claims depend on.  A quirk device binds a static
descriptor and sets UHID_FLAG_STATIC_DESC; otherwise the descriptor is
fetched dynamically, and a fetch failure jumps to `uhid_detach` with
nothing yet acquired (src/usbhid.c:650-653, 714-716).  The three report
sizes are then computed and capped to `UHID_BSIZE` with a log message
(never a failure), `sc_ibuf` is allocated with M_WAITOK (cannot fail),
and if `device_add_child` returns NULL attach again jumps to
`uhid_detach`, now with the descriptor and input buffer acquired.  On
failure the result carries the partial state `uhid_detach` was invoked
on; on success it carries the final softc fields. -/
def uhid_attach (env : AttachEnv) : Except UhidDetachState UhidAttached :=
  let sdesc := env.isGraphire || env.isGraphire3 || env.isXb360
  if sdesc || env.dynDescOk then
    if env.childOk then
      Except.ok
        { sc_isize := capSize env.rawIsize
        , sc_osize := capSize env.rawOsize
        , sc_fsize := capSize env.rawFsize
        , staticDesc := sdesc
        , loggedIsize := decide (UHID_BSIZE < env.rawIsize)
        , loggedOsize := decide (UHID_BSIZE < env.rawOsize)
        , loggedFsize := decide (UHID_BSIZE < env.rawFsize) }
    else
      Except.error
        { attached := false, sc_child := none, sc_repdesc_ptr := some 0
        , staticDesc := sdesc, sc_ibuf := some 1 }
  else
    Except.error
      { attached := false, sc_child := none, sc_repdesc_ptr := none
      , staticDesc := false, sc_ibuf := none }

/-- Whether `uhid_attach` returns success for the given inputs. -/
def uhid_attachSucceeds (env : AttachEnv) : Bool :=
  match uhid_attach env with
  | Except.ok _ => true
  | Except.error _ => false

/-- Translation of `usbhid_get_input_report` (src/usbhid.c:463-468): the
body is `return (ENOTSUP);` for every input. -/
def usbhid_get_input_report (len : Nat) : Nat :=
  ENOTSUP

/-- Translation of `usbhid_set_output_report` (src/usbhid.c:470-475): the
body is `return (ENOTSUP);` for every input. -/
def usbhid_set_output_report (len : Nat) : Nat :=
  ENOTSUP

/-- Translation of `usbhid_get_report` (src/usbhid.c:477-490): `usberr`
models the `usb_error_t` returned by the underlying
`usbd_req_get_report` transfer (0 = success); a nonzero transfer error is
mapped to ENXIO (`if (err) err = ENXIO;`). -/
def usbhid_get_report (len ty id usberr : Nat) : Nat :=
  if usberr ≠ 0 then ENXIOCode else usberr

/-- Translation of `usbhid_set_report` (src/usbhid.c:492-505): same
error mapping over the underlying `usbd_req_set_report` transfer. -/
def usbhid_set_report (len ty id usberr : Nat) : Nat :=
  if usberr ≠ 0 then ENXIOCode else usberr

/-- Translation of `usbhid_set_idle` (src/usbhid.c:507-520).  The first
component is the duration argument passed to `usbd_req_set_idle`:
`(duration + 3) / 4` ("Duration is measured in 4 milliseconds per
unit.").  `duration` is a `uint16_t`, promoted to `int` for the
arithmetic, so for `duration < 2^16` the C expression computes the exact
natural-number value with no overflow.  The second component is the
returned error code, with the same nonzero-to-ENXIO mapping as the other
report operations. -/
def usbhid_set_idle (duration id usberr : Nat) : Nat × Nat :=
  ((duration + 3) / 4, if usberr ≠ 0 then ENXIOCode else usberr)

/-- Translation of `usbhid_set_protocol` (src/usbhid.c:522-534): same
error mapping over the underlying `usbd_req_set_protocol` transfer. -/
def usbhid_set_protocol (protocol usberr : Nat) : Nat :=
  if usberr ≠ 0 then ENXIOCode else usberr

/-- Concrete attach environment used to witness the size-cap theorem: a
Wacom Graphire (static descriptor) whose computed input report size 2000
exceeds UHID_BSIZE. -/
def attachEnvW : AttachEnv :=
  { isGraphire := true, isGraphire3 := false, isXb360 := false, dynDescOk := false
  , rawIsize := 2000, rawOsize := 3, rawFsize := 4, childOk := true }

/-- The successful attach state produced by `uhid_attach attachEnvW`. -/
def attachResW : UhidAttached :=
  { sc_isize := 1024, sc_osize := 3, sc_fsize := 4, staticDesc := true
  , loggedIsize := true, loggedOsize := false, loggedFsize := false }

/-- Claim C1: a completed interrupt-pump read of actual length `actlen` is
accepted and delivered to the bus routing function if and only if
`actlen` is at least the configured input report size, or `actlen` is
positive and the configured input report id is nonzero; every such
completion (accepted or not) re-arms the pump, and a rejected one is
dropped silently with no recovery action. -/
theorem uhid_intr_read_accepted_iff (isize iid actlen : Nat) (payload : List Nat)
    (er : UsbErr) :
    ((uhid_intr_read_callback isize iid UsbXferState.transferred er actlen payload).delivered.isSome = true
      ↔ (isize ≤ actlen ∨ (0 < actlen ∧ iid ≠ 0)))
    ∧ (uhid_intr_read_callback isize iid UsbXferState.transferred er actlen payload).resubmitted = true
    ∧ (uhid_intr_read_callback isize iid UsbXferState.transferred er actlen payload).stallCleared = false := by
  by_cases hc : isize ≤ actlen ∨ (0 < actlen ∧ iid ≠ 0) <;>
    simp [uhid_intr_read_callback, hc]

/-- Claim C1 witness: at input size 2, report id 0, an accepted 3-byte
completion is delivered. -/
theorem uhid_intr_read_accepted_iff_witness :
    (uhid_intr_read_callback 2 0 UsbXferState.transferred UsbErr.stalled 3 [1, 2, 3]).delivered.isSome = true :=
  (uhid_intr_read_accepted_iff 2 0 3 [1, 2, 3] UsbErr.stalled).1.mpr (Or.inl (by decide))

/-- Claim C2: for an accepted report of actual length `actlen` (with the
transfer buffer holding at least `actlen` bytes), the payload handed to
the bound handler is exactly the first `min actlen isize` buffer bytes,
its length is `min actlen isize`, and the delivery never depends on any
buffer byte at offset `isize` or beyond: two buffers agreeing on their
first `isize` bytes produce the same delivery. -/
theorem uhid_intr_read_truncation (isize iid actlen : Nat) (p1 p2 : List Nat)
    (er : UsbErr)
    (hacc : isize ≤ actlen ∨ (0 < actlen ∧ iid ≠ 0))
    (hlen : actlen ≤ p1.length)
    (hagree : p1.take isize = p2.take isize) :
    (uhid_intr_read_callback isize iid UsbXferState.transferred er actlen p1).delivered
      = some (p1.take (min actlen isize))
    ∧ (p1.take (min actlen isize)).length = min actlen isize
    ∧ (uhid_intr_read_callback isize iid UsbXferState.transferred er actlen p1).delivered
      = (uhid_intr_read_callback isize iid UsbXferState.transferred er actlen p2).delivered := by
  have hmin : (if isize < actlen then isize else actlen) = min actlen isize := by
    split <;> omega
  have htk : p1.take (min actlen isize) = p2.take (min actlen isize) := by
    have e1 : (p1.take isize).take (min actlen isize) = p1.take (min actlen isize) := by
      rw [List.take_take]
      congr 1
      omega
    have e2 : (p2.take isize).take (min actlen isize) = p2.take (min actlen isize) := by
      rw [List.take_take]
      congr 1
      omega
    rw [← e1, ← e2, hagree]
  have hcb1 : (uhid_intr_read_callback isize iid UsbXferState.transferred er actlen p1).delivered
      = some (p1.take (min actlen isize)) := by
    simp only [uhid_intr_read_callback, if_pos hacc, hmin]
  have hcb2 : (uhid_intr_read_callback isize iid UsbXferState.transferred er actlen p2).delivered
      = some (p2.take (min actlen isize)) := by
    simp only [uhid_intr_read_callback, if_pos hacc, hmin]
  refine ⟨hcb1, ?_, ?_⟩
  · rw [List.length_take]
    omega
  · rw [hcb1, hcb2, htk]

/-- Claim C2 witness: input size 2, report id 0, a 3-byte frame is
truncated to the first 2 bytes; a buffer differing only at offset 2
yields the same delivery. -/
theorem uhid_intr_read_truncation_witness :
    (uhid_intr_read_callback 2 0 UsbXferState.transferred UsbErr.stalled 3 [10, 11, 12]).delivered
      = some (([10, 11, 12] : List Nat).take (min 3 2))
    ∧ (([10, 11, 12] : List Nat).take (min 3 2)).length = min 3 2
    ∧ (uhid_intr_read_callback 2 0 UsbXferState.transferred UsbErr.stalled 3 [10, 11, 12]).delivered
      = (uhid_intr_read_callback 2 0 UsbXferState.transferred UsbErr.stalled 3 [10, 11, 99]).delivered :=
  uhid_intr_read_truncation 2 0 3 [10, 11, 12] [10, 11, 99] UsbErr.stalled
    (Or.inl (by decide)) (by decide) (by decide)

/-- Claim C3: on a completion that reports a transport fault, a
non-cancelled fault performs exactly one recovery action (clearing the
stall) and re-submits the transfer, while USB_ERR_CANCELLED returns
without re-submitting and without any recovery action; neither error path
delivers anything. -/
theorem uhid_intr_read_error_path (isize iid actlen : Nat) (payload : List Nat)
    (er : UsbErr) :
    uhid_intr_read_callback isize iid UsbXferState.err er actlen payload
      = if er = UsbErr.cancelled
        then { delivered := none, stallCleared := false, resubmitted := false }
        else { delivered := none, stallCleared := true, resubmitted := true } := by
  by_cases h : er = UsbErr.cancelled <;> simp [uhid_intr_read_callback, h]

/-- Claim C4 counterexample: with a handler already bound (child 1,
handler 10), a second `hid_set_intr` call for child 2 with handler 20
does not fail — it returns a state with the new binding installed, which
differs from the original state, so the first binding is disturbed. -/
theorem hid_set_intr_second_bind_overwrites :
    hid_set_intr { child := some 1, intr := some 10 } 2 20
      = { child := some 2, intr := some 20 }
    ∧ ({ child := some 2, intr := some 20 } : HidbusSoftc)
      ≠ { child := some 1, intr := some 10 } :=
  ⟨rfl, by decide⟩

/-- Claim C4 amended: `hid_set_intr` always succeeds and stores the new
child and handler, replacing any previously bound pair (last bind wins);
since the softc has a single handler slot, at most one handler is bound
at any time, but a second bind replaces the first rather than failing. -/
theorem hid_set_intr_last_bind_wins (sc : HidbusSoftc) (c h : Nat) :
    hid_set_intr sc c h = { child := some c, intr := some h } :=
  rfl

/-- Claim C5 counterexample: invoking the routing function on a bus with
no handler bound (both pointers NULL) calls through a NULL function
pointer — a fault, not the safe silent drop the claim asserts. -/
theorem hidbus_intr_unbound_fault_cex :
    hidbus_intr { child := none, intr := none } [7] 1 = HidbusIntrOutcome.fault
    ∧ HidbusIntrOutcome.fault ≠ HidbusIntrOutcome.dropped :=
  ⟨rfl, by decide⟩

/-- Claim C5 amended: invoking the bus routing function while no client
handler is bound dereferences the NULL handler pointer and faults — it is
not a safe no-op; when a handler is bound, the routing function forwards
the buffer and length verbatim to it. -/
theorem hidbus_intr_unbound_faults (sc : HidbusSoftc) (buf : List Nat) (len : Nat) :
    (sc.intr = none → hidbus_intr sc buf len = HidbusIntrOutcome.fault)
    ∧ (∀ h : Nat, sc.intr = some h →
        hidbus_intr sc buf len = HidbusIntrOutcome.invoked h sc.child buf len) := by
  constructor
  · intro h0
    simp [hidbus_intr, h0]
  · intro h hh
    simp [hidbus_intr, hh]

/-- Claim C5 amended witness: the unbound bus faults on a concrete report;
a bound bus forwards it verbatim. -/
theorem hidbus_intr_unbound_faults_witness :
    hidbus_intr { child := none, intr := none } [3] 2 = HidbusIntrOutcome.fault
    ∧ hidbus_intr { child := some 4, intr := some 9 } [3] 2
      = HidbusIntrOutcome.invoked 9 (some 4) [3] 2 :=
  ⟨(hidbus_intr_unbound_faults { child := none, intr := none } [3] 2).1 rfl,
   (hidbus_intr_unbound_faults { child := some 4, intr := some 9 } [3] 2).2 9 rfl⟩

/-- Claim C6: `uhid_detach` frees the report descriptor blob exactly when
it is present and the static-descriptor flag is clear (the
dynamically-retrieved case); a statically-bound blob (flag set) is never
freed. -/
theorem uhid_detach_repdesc_ownership (s : UhidDetachState) :
    (uhid_detach s).repdescFreed = (s.sc_repdesc_ptr.isSome && !s.staticDesc) := by
  rcases s with ⟨a, c, r, st, ib⟩
  cases r <;> cases st <;> rfl

/-- Claim C7: on every softc state, attached or partial, `uhid_detach` is
a total function (no fault) that releases exactly the resources present:
the bus is detached only if attached, the child deleted only if created,
the descriptor freed only if present and dynamically owned, and the input
buffer freed only if allocated (kernel `free` of NULL is a no-op). -/
theorem uhid_detach_releases_exactly_acquired (s : UhidDetachState) :
    (uhid_detach s).busDetached = s.attached
    ∧ (uhid_detach s).childDeleted = s.sc_child.isSome
    ∧ (uhid_detach s).repdescFreed = (s.sc_repdesc_ptr.isSome && !s.staticDesc)
    ∧ (uhid_detach s).ibufFreed = s.sc_ibuf.isSome := by
  rcases s with ⟨a, c, r, st, ib⟩
  refine ⟨rfl, rfl, ?_, rfl⟩
  cases r <;> cases st <;> rfl

/-- Claim C8: `usbhid_get_input_report` and `usbhid_set_output_report`
return ENOTSUP for every input; `usbhid_get_report`, `usbhid_set_report`,
`usbhid_set_idle` and `usbhid_set_protocol` return ENXIO exactly when the
underlying transfer fails (nonzero transfer error) and 0 otherwise, and
never return ENOTSUP. -/
theorem usbhid_error_code_mapping (len ty id d e : Nat) :
    usbhid_get_input_report len = ENOTSUP
    ∧ usbhid_set_output_report len = ENOTSUP
    ∧ usbhid_get_report len ty id e = (if e = 0 then 0 else ENXIOCode)
    ∧ usbhid_set_report len ty id e = (if e = 0 then 0 else ENXIOCode)
    ∧ (usbhid_set_idle d id e).2 = (if e = 0 then 0 else ENXIOCode)
    ∧ usbhid_set_protocol len e = (if e = 0 then 0 else ENXIOCode)
    ∧ usbhid_get_report len ty id e ≠ ENOTSUP
    ∧ usbhid_set_report len ty id e ≠ ENOTSUP
    ∧ (usbhid_set_idle d id e).2 ≠ ENOTSUP
    ∧ usbhid_set_protocol len e ≠ ENOTSUP := by
  by_cases h : e = 0 <;>
    simp [usbhid_get_input_report, usbhid_set_output_report, usbhid_get_report,
      usbhid_set_report, usbhid_set_idle, usbhid_set_protocol,
      ENOTSUP, ENXIOCode, h]

/-- Claim C8 witness: with a failing transfer (error code 1), get_report
returns ENXIO while get_input_report returns ENOTSUP. -/
theorem usbhid_error_code_mapping_witness :
    usbhid_get_report 0 0 0 1 = ENXIOCode
    ∧ usbhid_get_input_report 0 = ENOTSUP :=
  ⟨by have h := (usbhid_error_code_mapping 0 0 0 0 1).2.2.1
      simpa using h,
   (usbhid_error_code_mapping 0 0 0 0 1).1⟩

/-- Claim C9: every successful attach stores input, output and feature
report sizes of at most UHID_BSIZE = 1024 bytes; each stored size is the
computed size capped at the maximum, with the truncation log message
fired exactly when the computed size exceeds the maximum; and attach
success is decided only by descriptor availability and child creation —
an oversize computed value never causes attach to fail. -/
theorem uhid_attach_report_size_cap (env : AttachEnv) (s : UhidAttached)
    (h : uhid_attach env = Except.ok s) :
    s.sc_isize ≤ UHID_BSIZE ∧ s.sc_osize ≤ UHID_BSIZE ∧ s.sc_fsize ≤ UHID_BSIZE
    ∧ s.sc_isize = min env.rawIsize UHID_BSIZE
    ∧ s.sc_osize = min env.rawOsize UHID_BSIZE
    ∧ s.sc_fsize = min env.rawFsize UHID_BSIZE
    ∧ s.loggedIsize = decide (UHID_BSIZE < env.rawIsize)
    ∧ s.loggedOsize = decide (UHID_BSIZE < env.rawOsize)
    ∧ s.loggedFsize = decide (UHID_BSIZE < env.rawFsize)
    ∧ uhid_attachSucceeds env
      = (((env.isGraphire || env.isGraphire3 || env.isXb360) || env.dynDescOk)
          && env.childOk) := by
  have hcap : ∀ r : Nat, capSize r = min r UHID_BSIZE := by
    intro r
    unfold capSize
    split <;> omega
  simp only [uhid_attach] at h
  split at h
  case isTrue hd =>
    split at h
    case isTrue hc =>
      injection h with h
      subst h
      refine ⟨?_, ?_, ?_, ?_, ?_, ?_, rfl, rfl, rfl, ?_⟩
      · show capSize env.rawIsize ≤ UHID_BSIZE
        rw [hcap]
        omega
      · show capSize env.rawOsize ≤ UHID_BSIZE
        rw [hcap]
        omega
      · show capSize env.rawFsize ≤ UHID_BSIZE
        rw [hcap]
        omega
      · show capSize env.rawIsize = min env.rawIsize UHID_BSIZE
        rw [hcap]
      · show capSize env.rawOsize = min env.rawOsize UHID_BSIZE
        rw [hcap]
      · show capSize env.rawFsize = min env.rawFsize UHID_BSIZE
        rw [hcap]
      · simp [uhid_attachSucceeds, uhid_attach, hd, hc]
    case isFalse hc =>
      exact Except.noConfusion h
  case isFalse hd =>
    exact Except.noConfusion h

/-- Claim C9 witness: a Wacom Graphire whose computed input size is 2000
attaches successfully with the stored input size capped to 1024. -/
theorem uhid_attach_report_size_cap_witness :
    uhid_attach attachEnvW = Except.ok attachResW
    ∧ attachResW.sc_isize ≤ UHID_BSIZE
    ∧ attachResW.sc_isize = min attachEnvW.rawIsize UHID_BSIZE :=
  ⟨rfl,
   (uhid_attach_report_size_cap attachEnvW attachResW rfl).1,
   (uhid_attach_report_size_cap attachEnvW attachResW rfl).2.2.2.1⟩

/-- Claim C10: for every duration below 2^16 (the uint16_t range), the
duration value `usbhid_set_idle` passes to the underlying USB set-idle
request is `(duration + 3) / 4`, computed without overflow (the promoted
int intermediate stays below 2^31), and that value is the exact ceiling
of duration/4: it is the unique `q` with `duration ≤ 4 * q ≤ duration + 3`. -/
theorem usbhid_set_idle_duration_ceiling (d id e : Nat) (h : d < 65536) :
    (usbhid_set_idle d id e).1 = (d + 3) / 4
    ∧ d + 3 < 2 ^ 31
    ∧ d ≤ 4 * (usbhid_set_idle d id e).1
    ∧ 4 * (usbhid_set_idle d id e).1 ≤ d + 3 := by
  refine ⟨rfl, by omega, ?_, ?_⟩ <;>
    (simp only [usbhid_set_idle]; omega)

/-- Claim C10 witness: at the maximal uint16_t duration 65535 the wire
value is 16384 = ceil(65535/4), with 65535 ≤ 4 * 16384 ≤ 65538. -/
theorem usbhid_set_idle_duration_ceiling_witness :
    (usbhid_set_idle 65535 0 0).1 = (65535 + 3) / 4
    ∧ 65535 ≤ 4 * (usbhid_set_idle 65535 0 0).1 :=
  ⟨(usbhid_set_idle_duration_ceiling 65535 0 0 (by omega)).1,
   (usbhid_set_idle_duration_ceiling 65535 0 0 (by omega)).2.2.1⟩
